import Mathlib

/-!
Shallow embedding of the browser RUM telemetry agent.

Sources: `src/unnamed/part_000`, and the two script variants concatenated in
`src/rum-sass.js`, referred to below as variant A (rum-sass.js lines 1-316)
and variant B (rum-sass.js lines 317-643).

Performance timestamps, durations and layout-shift magnitudes are embedded as
rationals; JS `null`/`undefined` values are embedded as `Option.none`.
-/

/-- Which send helper an envelope goes through: `sendMetrics` envelopes have
path `metrics`, `sendError` envelopes have path `errors`. -/
inductive SendPath
  | metrics
  | errors
deriving DecidableEq

/-- Physical transport used by `post` (part_000 lines 31-42): the unload-safe
`navigator.sendBeacon`, or the standard keepalive fetch POST. -/
inductive Channel
  | beacon
  | keepaliveFetch
deriving DecidableEq

/-- `post(url, payload, useBeacon)` (part_000 lines 31-42): takes the beacon
channel exactly when `useBeacon` was requested and `navigator.sendBeacon`
exists, otherwise issues a standard fetch POST (failures swallowed).
Variant A inlines the same choice in `sendMetrics` (rum-sass.js lines 22-31)
with the beacon preferred, and in `sendError` (lines 38-42) with the fetch
path always taken. -/
def post (useBeacon beaconAvailable : Bool) : Channel :=
  if useBeacon && beaconAvailable then .beacon else .keepaliveFetch

/-- Projection of an event envelope keeping the fields the claims are about:
the trigger tag, which send helper delivers it, the recorded HTTP status
(`none` embeds JSON `null`) and the recorded error message.  The url,
timestamp and nested metric payload fields are not modelled. -/
structure Envelope where
  trigger : String
  path : SendPath
  status : Option Nat := none
  error : Option String := none
deriving DecidableEq

/-- Channel an envelope is delivered on: `sendMetrics` (part_000 line 46)
calls `post` with `useBeacon = true`, `sendError` (part_000 line 51) calls it
with `useBeacon = false`. -/
def deliveredChannel (env : Envelope) (beaconAvailable : Bool) : Channel :=
  match env.path with
  | .metrics => post true beaconAvailable
  | .errors => post false beaconAvailable

/-- A thrown JavaScript value as the shims observe it: its `.message`
property (`none` when absent) and its `String(err)` rendering. -/
structure JsError where
  message : Option String
  asString : String
deriving DecidableEq

/-- `err?.message || String(err)` (part_000 line 275): the message property
when present and truthy (a present but empty message is falsy in JS),
otherwise the string rendering of the thrown value. -/
def errMessage (e : JsError) : String :=
  match e.message with
  | some m => if m = "" then e.asString else m
  | none => e.asString

/-- Outcome of the underlying network call: a response carrying an HTTP
status, or a rejection carrying the thrown value. -/
inductive FetchOutcome
  | ok (status : Nat)
  | failure (err : JsError)
deriving DecidableEq

/-- A fetch implementation, as the behaviour a call exhibits given what the
real network does: the value the caller observes, plus the telemetry
envelopes emitted along the way. -/
def FetchImpl : Type :=
  FetchOutcome → FetchOutcome × List Envelope

/-- The unwrapped `window.fetch`: passes the network outcome straight to the
caller and emits no telemetry. -/
def baseFetch : FetchImpl :=
  fun beh => (beh, [])

/-- Envelope emitted when an instrumented fetch resolves (part_000 lines
255-259) or an instrumented XHR of variant A finishes (rum-sass.js lines
194-204): `status >= 400` goes to `sendError` as an `api_call_error` record,
anything else to `sendMetrics` as an `api_call` record. -/
def apiResponseEnvelope (status : Nat) : Envelope :=
  if 400 ≤ status then
    { trigger := "api_call_error", path := .errors, status := some status }
  else
    { trigger := "api_call", path := .metrics, status := some status }

/-- Envelope emitted by the part_000 XHR `loadend` listener (lines 323-327)
and the variant A one (rum-sass.js lines 244-248): same classification by
status as the fetch shim. -/
def xhrLoadendEnvelope (status : Nat) : Envelope :=
  if 400 ≤ status then
    { trigger := "api_call_error", path := .errors, status := some status }
  else
    { trigger := "api_call", path := .metrics, status := some status }

/-- Envelope emitted by the variant B XHR `loadend` listener (rum-sass.js
lines 504-520): always `sendMetrics` with trigger `api_call`, whatever the
status is. -/
def xhrLoadendEnvelopeB (status : Nat) : Envelope :=
  { trigger := "api_call", path := .metrics, status := some status }

/-- Envelope emitted by the part_000 fetch catch branch (lines 262-281):
`sendError` with trigger `api_call_exception`, status `null`, and the
failure message `err?.message || String(err)`. -/
def apiExceptionEnvelope (e : JsError) : Envelope :=
  { trigger := "api_call_exception", path := .errors, error := some (errMessage e) }

/-- Envelope emitted by the variant A fetch catch branch (rum-sass.js lines
206-213): `sendError` with trigger `api_call_exception` and `err.message`
(which may be absent). -/
def apiExceptionEnvelopeA (e : JsError) : Envelope :=
  { trigger := "api_call_exception", path := .errors, error := e.message }

/-- The part_000 fetch shim IIFE (lines 221-285) as a wrapper over whatever
`window.fetch` currently is at application time (the IIFE argument
`fetchFn`): it dispatches through the captured function, then emits one
envelope classified by the outcome, returning the response unchanged or
rethrowing the rejection value unchanged. -/
def wrapFetch (fetchFn : FetchImpl) : FetchImpl :=
  fun beh =>
    let r := fetchFn beh
    match r.1 with
    | .ok s => (.ok s, r.2 ++ [apiResponseEnvelope s])
    | .failure e => (.failure e, r.2 ++ [apiExceptionEnvelope e])

/-- The variant A fetch shim IIFE (rum-sass.js lines 180-215): same wrapper
shape, with its own catch-branch envelope. -/
def wrapFetchA (fetchFn : FetchImpl) : FetchImpl :=
  fun beh =>
    let r := fetchFn beh
    match r.1 with
    | .ok s => (.ok s, r.2 ++ [apiResponseEnvelope s])
    | .failure e => (.failure e, r.2 ++ [apiExceptionEnvelopeA e])

/-- `window.fetch` after the part_000 shim is applied once, as at page
initialization (the IIFE is invoked on the pristine `window.fetch`). -/
def wrappedFetch : FetchImpl :=
  wrapFetch baseFetch

/-- `window.fetch` after the variant A shim is applied once. -/
def wrappedFetchA : FetchImpl :=
  wrapFetchA baseFetch

/-- A JS headers object, as a key to value map. -/
def HeadersMap : Type :=
  String → Option String

/-- Writing one key of a JS object literal: later keys override earlier
ones. -/
def setHeader (h : HeadersMap) (k v : String) : HeadersMap :=
  fun k2 => if k2 = k then some v else h k2

/-- Correlation-header injection of the fetch shim (part_000 lines 224-228):
spread the existing headers, then write `X-RUM-Session-Id` and
`X-RUM-Endpoint-Id`. -/
def injectRumHeaders (sid eid : String) (h : HeadersMap) : HeadersMap :=
  setHeader (setHeader h "X-RUM-Session-Id" sid) "X-RUM-Endpoint-Id" eid

/-- Envelope of the `error` listener (part_000 lines 197-208), keeping the
captured message; the source/line/column/stack detail fields are not
modelled. -/
def jsErrorEnvelope (message : String) : Envelope :=
  { trigger := "js_error", path := .errors, error := some message }

/-- Envelope of the `unhandledrejection` listener (part_000 lines 210-218):
the message is `event.reason ? event.reason.message || String(event.reason)
: 'Unhandled Promise Rejection'`. -/
def promiseRejectionEnvelope (reason : Option JsError) : Envelope :=
  { trigger := "js_promise_rejection", path := .errors,
    error := some (match reason with
      | some r => errMessage r
      | none => "Unhandled Promise Rejection") }

/-- The session-end envelope (part_000 lines 182-189), sent through
`sendMetrics`; its session timestamp payload is not modelled. -/
def sessionEndEnvelope : Envelope :=
  { trigger := "session_end", path := .metrics }

/-- The three page-unload events the agent listens to (part_000 line 177). -/
inductive UnloadEvt
  | pagehide
  | visibilitychange
  | beforeunload
deriving DecidableEq

/-- Which of the three one-shot `session_end` listeners registered at
part_000 lines 177-194 are still armed.  `once: true` (line 192) removes a
listener the first time its own event fires; the three listeners share no
other state. -/
structure UnloadListeners where
  pagehideArmed : Bool
  visibilityArmed : Bool
  beforeunloadArmed : Bool
deriving DecidableEq

/-- All three listeners armed, as right after registration. -/
def initialListeners : UnloadListeners :=
  ⟨true, true, true⟩

/-- Whether the listener for the given event is still registered. -/
def armedFor (s : UnloadListeners) : UnloadEvt → Bool
  | .pagehide => s.pagehideArmed
  | .visibilitychange => s.visibilityArmed
  | .beforeunload => s.beforeunloadArmed

/-- Remove the listener for the given event (the `once: true` behaviour). -/
def disarm (s : UnloadListeners) : UnloadEvt → UnloadListeners
  | .pagehide => { s with pagehideArmed := false }
  | .visibilitychange => { s with visibilityArmed := false }
  | .beforeunload => { s with beforeunloadArmed := false }

/-- The guard at part_000 line 181:
`document.visibilityState === 'hidden' || evt !== 'visibilitychange'`. -/
def sessionEndGuard (evt : UnloadEvt) (hidden : Bool) : Bool :=
  hidden || evt != .visibilitychange

/-- One unload-related event firing: if that event's listener is still armed
it runs once and is removed; it sends one `session_end` envelope exactly
when the guard holds.  Returns the new listener state and how many
`session_end` envelopes this firing sent. -/
def stepUnload (s : UnloadListeners) (evt : UnloadEvt) (hidden : Bool) :
    UnloadListeners × Nat :=
  if armedFor s evt then
    (disarm s evt, if sessionEndGuard evt hidden then 1 else 0)
  else
    (s, 0)

/-- Total number of `session_end` envelopes sent over a sequence of unload
events (each element: the event, and whether `document.visibilityState` is
`hidden` at that moment). -/
def runUnload (s : UnloadListeners) : List (UnloadEvt × Bool) → Nat
  | [] => 0
  | (evt, hidden) :: rest =>
    let r := stepUnload s evt hidden
    r.2 + runUnload r.1 rest

/-- One layout-shift observer entry: its magnitude and its
`hadRecentInput` flag. -/
structure ClsEntry where
  value : ℚ
  hadRecentInput : Bool
deriving DecidableEq

/-- The CLS observer callback (part_000 lines 102-106): fold a batch of
layout-shift entries into the running `clsValue`, adding `entry.value`
exactly when `entry.hadRecentInput` is false. -/
def clsProcess (clsValue : ℚ) (entries : List ClsEntry) : ℚ :=
  entries.foldl (fun acc e => if !e.hadRecentInput then acc + e.value else acc) clsValue

/-- One paint observer entry: its name and start time. -/
structure PaintEntry where
  name : String
  startTime : ℚ
deriving DecidableEq

/-- Handling of one paint entry (part_000 lines 59-62): an entry named
`first-paint` writes `fpValue`, one named `first-contentful-paint` writes
`fcpValue`; each write overwrites whatever was stored before. -/
def paintStep (s : Option ℚ × Option ℚ) (e : PaintEntry) : Option ℚ × Option ℚ :=
  (if e.name = "first-paint" then some e.startTime else s.1,
   if e.name = "first-contentful-paint" then some e.startTime else s.2)

/-- The paint observer callback over a whole entry sequence: state is the
pair `(fpValue, fcpValue)`. -/
def paintProcess (s : Option ℚ × Option ℚ) (entries : List PaintEntry) :
    Option ℚ × Option ℚ :=
  entries.foldl paintStep s

/-- Start time of the last entry with the given name, if any. -/
def lastNamed (n : String) : List PaintEntry → Option ℚ
  | [] => none
  | e :: rest =>
    match lastNamed n rest with
    | some v => some v
    | none => if e.name = n then some e.startTime else none

/-- An observed value when present, otherwise the prior state. -/
def orInit (o init : Option ℚ) : Option ℚ :=
  match o with
  | some v => some v
  | none => init

/-- A browser resource-timing entry, with the fields
`collectResourceMetrics` reads.  `transferSize = none` embeds the capability
being absent (`undefined`).  `fromAgentDelivery` is provenance the code
cannot read: whether the browser recorded this entry for one of the agent's
own envelope deliveries (the spec property quantifies over it, the code
filters only on `initiatorType`). -/
structure ResourceEntry where
  name : String
  initiatorType : String
  duration : ℚ
  transferSize : Option ℚ
  startTime : ℚ
  responseEnd : ℚ
  fromAgentDelivery : Bool
deriving DecidableEq

/-- The record shape `{name, type, duration, transferSize, startTime,
responseEnd}` built at part_000 lines 114-121. -/
structure ResourceRecord where
  name : String
  type : String
  duration : ℚ
  transferSize : Option ℚ
  startTime : ℚ
  responseEnd : ℚ
deriving DecidableEq

/-- `r.transferSize || null` (part_000 line 118): JS falsy coercion sends
both an absent capability and an exact zero to `null`. -/
def coerceTransferSize : Option ℚ → Option ℚ
  | none => none
  | some v => if v = 0 then none else some v

/-- The map step of `collectResourceMetrics` (part_000 lines 114-121). -/
def toResourceRecord (r : ResourceEntry) : ResourceRecord :=
  { name := r.name, type := r.initiatorType, duration := r.duration,
    transferSize := coerceTransferSize r.transferSize,
    startTime := r.startTime, responseEnd := r.responseEnd }

/-- `collectResourceMetrics` (part_000 lines 110-122, identically rum-sass.js
lines 100-112 and 387-399): filter out the entries whose `initiatorType` is
`beacon`, map the rest to the record shape. -/
def collectResourceMetrics (resources : List ResourceEntry) : List ResourceRecord :=
  (resources.filter fun r => r.initiatorType != "beacon").map toResourceRecord

/-- Spec reading of the amended resource claim: the non-beacon entries, in
order, each mapped to the record shape. -/
def nonBeaconRecords : List ResourceEntry → List ResourceRecord
  | [] => []
  | r :: rest =>
    if r.initiatorType = "beacon" then nonBeaconRecords rest
    else toResourceRecord r :: nonBeaconRecords rest

/-- A JSON value as it appears in a payload (only the shapes the identity
claims need). -/
inductive JsonVal
  | str (s : String)
  | num (q : ℚ)
  | nul
deriving DecidableEq

/-- A JS object, as a key to value map. -/
def JsObj : Type :=
  String → Option JsonVal

/-- Object spread `{...a, ...b}`: keys of `b` override keys of `a`. -/
def spreadMerge (a b : JsObj) : JsObj :=
  fun k =>
    match b k with
    | some v => some v
    | none => a k

/-- The JSON value of a nullable identifier (`endpoint_id` may be `null`). -/
def idVal : Option String → JsonVal
  | some s => .str s
  | none => .nul

/-- The `rumIds` object captured once at initialization (part_000 line 24):
`{session_id: sessionId, endpoint_id: endpointId}`. -/
def rumIdsObj (sid : String) (eid : Option String) : JsObj :=
  fun k =>
    if k = "session_id" then some (.str sid)
    else if k = "endpoint_id" then some (idVal eid)
    else none

/-- The payload built by both `sendMetrics` and `sendError` (part_000 lines
45 and 50, variant A lines 19 and 35): `{...data, ...rumIds}`, so the
identity keys are spread after the event data. -/
def mkPayload (sid : String) (eid : Option String) (data : JsObj) : JsObj :=
  spreadMerge data (rumIdsObj sid eid)

/-! ## Helper lemmas -/

/-- Closed form of the CLS fold: the running value plus the sum of the
magnitudes of the entries without recent input. -/
theorem clsProcess_eq (entries : List ClsEntry) :
    ∀ s : ℚ, clsProcess s entries
      = s + ((entries.filter fun e => !e.hadRecentInput).map ClsEntry.value).sum := by
  induction entries with
  | nil =>
    intro s
    simp [clsProcess]
  | cons e rest ih =>
    intro s
    have h1 : clsProcess s (e :: rest)
        = clsProcess (if !e.hadRecentInput then s + e.value else s) rest := rfl
    by_cases h : e.hadRecentInput
    · rw [h1]
      simp [h, ih, List.filter_cons]
    · rw [h1]
      simp [h, ih, List.filter_cons]
      ring

/-- Unfolding `lastNamed` across a cons, phrased through `orInit`. -/
theorem orInit_lastNamed_cons (n : String) (e : PaintEntry) (rest : List PaintEntry)
    (x : Option ℚ) :
    orInit (lastNamed n (e :: rest)) x
      = orInit (lastNamed n rest) (if e.name = n then some e.startTime else x) := by
  cases hl : lastNamed n rest with
  | some v => simp [lastNamed, orInit, hl]
  | none =>
    by_cases hn : e.name = n
    · simp [lastNamed, orInit, hl, hn]
    · simp [lastNamed, orInit, hl, hn]

/-! ## Claims -/

/-- Claim C1 (status: code bug).  The three `session_end` listeners are each
one-shot but independent: in an unload sequence where `pagehide` fires and
then `beforeunload` fires, each event's own still-armed listener runs, so
two `session_end` envelopes are sent, not the single one the specification
requires; a lone `pagehide` sends one. -/
theorem session_end_double_emit :
    runUnload initialListeners
        [(UnloadEvt.pagehide, true), (UnloadEvt.beforeunload, true)] = 2
    ∧ runUnload initialListeners [(UnloadEvt.pagehide, true)] = 1 := by
  constructor <;> rfl

/-- Claim C2 (status: confirmed).  When the underlying call rejects, the
instrumented fetch of part_000 (and of the first rum-sass.js variant)
propagates the same rejection value to the caller and emits exactly one
envelope, an exception-trigger `api_call_exception` record carrying the
failure message, delivered through the error path. -/
theorem fetch_exception_propagates (e : JsError) :
    wrappedFetch (.failure e) = (.failure e, [apiExceptionEnvelope e])
    ∧ (apiExceptionEnvelope e).trigger = "api_call_exception"
    ∧ (apiExceptionEnvelope e).error = some (errMessage e)
    ∧ (apiExceptionEnvelope e).path = SendPath.errors
    ∧ wrappedFetchA (.failure e) = (.failure e, [apiExceptionEnvelopeA e])
    ∧ (apiExceptionEnvelopeA e).trigger = "api_call_exception"
    ∧ (apiExceptionEnvelopeA e).error = e.message := by
  refine ⟨rfl, rfl, rfl, rfl, rfl, rfl, rfl⟩

/-- Claim C2 witness at a concrete rejection. -/
theorem fetch_exception_propagates_witness :
    wrappedFetch (.failure ⟨some "boom", "Error: boom"⟩)
      = (.failure ⟨some "boom", "Error: boom"⟩,
         [apiExceptionEnvelope ⟨some "boom", "Error: boom"⟩]) :=
  (fetch_exception_propagates ⟨some "boom", "Error: boom"⟩).1

/-- Claim C3 counterexample.  The variant B XHR wrapper performs no status
classification: a call finishing with status 500 is emitted as a
metrics-trigger `api_call` record through `sendMetrics`, with no
error-trigger record, contradicting the claim for that instrumented
wrapper. -/
theorem xhr_variant_no_classification :
    (xhrLoadendEnvelopeB 500).trigger = "api_call"
    ∧ (xhrLoadendEnvelopeB 500).path = SendPath.metrics
    ∧ (xhrLoadendEnvelopeB 500).trigger ≠ "api_call_error"
    ∧ 400 ≤ 500 := by
  refine ⟨rfl, rfl, ?_, by norm_num⟩
  decide

/-- Claim C3 (status: corrected).  In the classifying wrappers — the
part_000 fetch shim, the part_000 and variant A XHR `loadend` listeners, and
the variant A fetch shim — a completed call yields exactly one record, which
is error-trigger iff `status ≥ 400` and metrics-trigger iff `status < 400`;
the variant B XHR listener instead always emits a metrics-trigger `api_call`
record regardless of status. -/
theorem status_classification (s : Nat) :
    (wrappedFetch (.ok s)).1 = .ok s
    ∧ (wrappedFetch (.ok s)).2 = [apiResponseEnvelope s]
    ∧ (wrappedFetchA (.ok s)).1 = .ok s
    ∧ (wrappedFetchA (.ok s)).2 = [apiResponseEnvelope s]
    ∧ ((apiResponseEnvelope s).path = SendPath.errors ↔ 400 ≤ s)
    ∧ ((apiResponseEnvelope s).trigger = "api_call_error" ↔ 400 ≤ s)
    ∧ ((apiResponseEnvelope s).trigger = "api_call" ↔ s < 400)
    ∧ ((xhrLoadendEnvelope s).trigger = "api_call_error" ↔ 400 ≤ s)
    ∧ ((xhrLoadendEnvelope s).trigger = "api_call" ↔ s < 400)
    ∧ (xhrLoadendEnvelopeB s).trigger = "api_call"
    ∧ (xhrLoadendEnvelopeB s).path = SendPath.metrics := by
  by_cases h : 400 ≤ s <;>
    refine ⟨rfl, rfl, rfl, rfl, ?_, ?_, ?_, ?_, ?_, rfl, rfl⟩ <;>
      simp [apiResponseEnvelope, xhrLoadendEnvelope, h] <;>
        omega

/-- Claim C3 witness: the classification at statuses 500 and 200. -/
theorem status_classification_witness :
    (apiResponseEnvelope 500).trigger = "api_call_error"
    ∧ (apiResponseEnvelope 200).trigger = "api_call" :=
  ⟨((status_classification 500).2.2.2.2.2.1).mpr (by norm_num),
   ((status_classification 200).2.2.2.2.2.2.1).mpr (by norm_num)⟩

/-- Claim C4 (status: confirmed).  The cumulative-layout-shift value after a
batch of observations equals the prior value plus the exact sum of the
magnitudes of the entries without recent input (flagged entries contribute
zero), and — magnitudes being non-negative — the value never decreases. -/
theorem cls_additive (s : ℚ) (entries : List ClsEntry)
    (hval : ∀ e ∈ entries, 0 ≤ e.value) :
    clsProcess s entries
      = s + ((entries.filter fun e => !e.hadRecentInput).map ClsEntry.value).sum
    ∧ s ≤ clsProcess s entries := by
  have he := clsProcess_eq entries s
  refine ⟨he, ?_⟩
  rw [he]
  have hsum : 0 ≤ ((entries.filter fun e => !e.hadRecentInput).map ClsEntry.value).sum := by
    apply List.sum_nonneg
    intro x hx
    obtain ⟨e, he2, rfl⟩ := List.mem_map.mp hx
    exact hval e (List.mem_of_mem_filter he2)
  linarith

/-- A small concrete layout-shift batch. -/
def clsSample : List ClsEntry :=
  [⟨1/2, false⟩, ⟨1/4, true⟩, ⟨3/10, false⟩]

/-- Claim C4 witness on `clsSample`. -/
theorem cls_additive_witness :
    clsProcess 0 clsSample
      = 0 + ((clsSample.filter fun e => !e.hadRecentInput).map ClsEntry.value).sum
    ∧ (0 : ℚ) ≤ clsProcess 0 clsSample :=
  cls_additive 0 clsSample (by intro e he; fin_cases he <;> norm_num)

/-- Claim C5 counterexample.  Applying the fetch shim twice is not
equivalent to applying it once: the second application captures the
already-wrapped function, so one call through the doubly-applied shim emits
two network records where the singly-applied shim emits one. -/
theorem double_wrap_counterexample :
    ((wrapFetch (wrapFetch baseFetch)) (.ok 200)).2.length = 2
    ∧ ((wrapFetch baseFetch) (.ok 200)).2.length = 1 := by
  constructor <;> rfl

/-- Claim C5 (status: corrected).  The shim wraps whatever primitive is
current at application time: applied once it leaves the caller-visible
outcome unchanged and emits exactly one record per call, and its
correlation-header injection is idempotent; but applied twice it chains
through the singly-wrapped function and emits two records per call (there is
no re-wrap guard). -/
theorem wrap_once_single_record (beh : FetchOutcome) (sid eid : String)
    (hm : HeadersMap) :
    (wrapFetch baseFetch beh).1 = beh
    ∧ (wrapFetch baseFetch beh).2.length = 1
    ∧ (wrapFetch (wrapFetch baseFetch) beh).1 = beh
    ∧ (wrapFetch (wrapFetch baseFetch) beh).2.length = 2
    ∧ injectRumHeaders sid eid (injectRumHeaders sid eid hm)
        = injectRumHeaders sid eid hm := by
  refine ⟨?_, ?_, ?_, ?_, ?_⟩
  · cases beh <;> rfl
  · cases beh <;> rfl
  · cases beh <;> rfl
  · cases beh <;> rfl
  · funext k
    by_cases h1 : k = "X-RUM-Endpoint-Id" <;>
      by_cases h2 : k = "X-RUM-Session-Id" <;>
        simp [injectRumHeaders, setHeader, h1, h2]

/-- Claim C5 witness at a concrete call. -/
theorem wrap_once_single_record_witness :
    (wrapFetch baseFetch (.ok 204)).2.length = 1 :=
  (wrap_once_single_record (.ok 204) "sess-1" "ep-1" (fun _ => none)).2.1

/-- Claim C6 (status: confirmed).  Every error-path envelope (uncaught
errors, unhandled rejections, exception-trigger and error-trigger network
records) is delivered through the standard fetch request, whatever the
beacon support; metrics-path envelopes (such as session-end and sub-400
network records) take the beacon when `navigator.sendBeacon` exists and fall
back to the standard request otherwise. -/
theorem delivery_channel_selection (b : Bool) (s : Nat) (e : JsError)
    (m : String) (reason : Option JsError) :
    deliveredChannel (jsErrorEnvelope m) b = Channel.keepaliveFetch
    ∧ deliveredChannel (promiseRejectionEnvelope reason) b = Channel.keepaliveFetch
    ∧ deliveredChannel (apiExceptionEnvelope e) b = Channel.keepaliveFetch
    ∧ deliveredChannel (apiExceptionEnvelopeA e) b = Channel.keepaliveFetch
    ∧ deliveredChannel (apiResponseEnvelope s) b
        = (if 400 ≤ s then Channel.keepaliveFetch
           else if b then Channel.beacon else Channel.keepaliveFetch)
    ∧ deliveredChannel sessionEndEnvelope b
        = (if b then Channel.beacon else Channel.keepaliveFetch)
    ∧ post false b = Channel.keepaliveFetch
    ∧ post true b = (if b then Channel.beacon else Channel.keepaliveFetch) := by
  cases b <;> by_cases h : 400 ≤ s <;>
    simp [deliveredChannel, post, jsErrorEnvelope, promiseRejectionEnvelope,
      apiExceptionEnvelope, apiExceptionEnvelopeA, apiResponseEnvelope,
      sessionEndEnvelope, h]

/-- Claim C6 witness at concrete inputs. -/
theorem delivery_channel_selection_witness :
    deliveredChannel sessionEndEnvelope true = Channel.beacon
    ∧ deliveredChannel (jsErrorEnvelope "boom") true = Channel.keepaliveFetch := by
  have h := delivery_channel_selection true 200 ⟨none, "x"⟩ "boom" none
  exact ⟨by simpa using h.2.2.2.2.2.1, h.1⟩

/-- Claim C7 counterexample.  A second observed entry named `first-paint`
overwrites the stored value: after the sequence with start times 10 and 20
the stored first-paint value is 20, not the first observation 10 — the value
is revised after first observation. -/
theorem paint_overwrite_counterexample :
    paintProcess (none, none)
        [⟨"first-paint", 10⟩, ⟨"first-paint", 20⟩] = (some 20, none)
    ∧ some (20 : ℚ) ≠ some (10 : ℚ) := by
  refine ⟨rfl, ?_⟩
  norm_num

/-- Claim C7 (status: corrected).  The paint observer is last-write-wins:
after any entry sequence, the stored first-paint and first-contentful-paint
values are the start time of the most recent entry with the corresponding
name, keeping the prior state when no entry matches; each is therefore set
at most once only for sequences containing at most one entry per name (as
the browser in fact emits). -/
theorem paint_last_write (entries : List PaintEntry) :
    ∀ s : Option ℚ × Option ℚ,
      paintProcess s entries
        = (orInit (lastNamed "first-paint" entries) s.1,
           orInit (lastNamed "first-contentful-paint" entries) s.2) := by
  induction entries with
  | nil =>
    intro s
    simp [paintProcess, lastNamed, orInit]
  | cons e rest ih =>
    intro s
    have h1 : paintProcess s (e :: rest) = paintProcess (paintStep s e) rest := rfl
    rw [h1, ih, orInit_lastNamed_cons, orInit_lastNamed_cons]
    rfl

/-- Claim C7 witness at a one-entry sequence. -/
theorem paint_last_write_witness :
    paintProcess (none, none) [⟨"first-paint", 7⟩]
      = (orInit (lastNamed "first-paint" [⟨"first-paint", 7⟩]) none,
         orInit (lastNamed "first-contentful-paint" [⟨"first-paint", 7⟩]) none) :=
  paint_last_write [⟨"first-paint", 7⟩] (none, none)

/-- Claim C8 counterexample.  An entry recorded for one of the agent's own
deliveries made through the fetch path (`initiatorType = "fetch"`, as every
error envelope and every beacon-less metrics envelope produces) is not
excluded: it survives the beacon-only filter, so not every
agent-delivery entry is excluded. -/
theorem resource_filter_counterexample :
    collectResourceMetrics
        [⟨"http://localhost:8000/rum/errors", "fetch", 5, some 120, 0, 5, true⟩]
      = [toResourceRecord
          ⟨"http://localhost:8000/rum/errors", "fetch", 5, some 120, 0, 5, true⟩]
    ∧ (([⟨"http://localhost:8000/rum/errors", "fetch", 5, some 120, 0, 5, true⟩] :
          List ResourceEntry).filter fun r => !r.fromAgentDelivery).map toResourceRecord
      = [] := by
  constructor <;> rfl

/-- Claim C8 (status: corrected).  `collectResourceMetrics` returns exactly
the entries whose `initiatorType` is not `beacon`, in order, each mapped to
the record shape — only beacon-transported deliveries are excluded, not
deliveries made through the fetch path. -/
theorem resource_metrics_non_beacon (rs : List ResourceEntry) :
    collectResourceMetrics rs = nonBeaconRecords rs := by
  induction rs with
  | nil => rfl
  | cons r rest ih =>
    by_cases h : r.initiatorType = "beacon"
    · simpa [collectResourceMetrics, nonBeaconRecords, List.filter_cons, h] using ih
    · simpa [collectResourceMetrics, nonBeaconRecords, List.filter_cons, h] using ih

/-- Claim C8 witness at a one-entry list. -/
theorem resource_metrics_non_beacon_witness :
    collectResourceMetrics [⟨"app.css", "link", 3, some 40, 0, 3, false⟩]
      = nonBeaconRecords [⟨"app.css", "link", 3, some 40, 0, 3, false⟩] :=
  resource_metrics_non_beacon [⟨"app.css", "link", 3, some 40, 0, 3, false⟩]

/-- Claim C9 (status: confirmed).  The payload spread puts the stored
identity after the event data, so every delivered payload carries the
initialization-time `session_id` and `endpoint_id`, and an event object that
itself holds a `session_id` key cannot override them. -/
theorem payload_identity_precedence (sid : String) (eid : Option String)
    (data : JsObj) :
    mkPayload sid eid data "session_id" = some (JsonVal.str sid)
    ∧ mkPayload sid eid data "endpoint_id" = some (idVal eid)
    ∧ mkPayload sid eid
        (fun k => if k = "session_id" then some (JsonVal.str "spoofed") else data k)
        "session_id"
      = some (JsonVal.str sid) := by
  refine ⟨rfl, rfl, rfl⟩

/-- Claim C9 witness at a concrete identity and event object. -/
theorem payload_identity_precedence_witness :
    mkPayload "sess-1" (some "ep-1") (fun _ => none) "session_id"
      = some (JsonVal.str "sess-1") :=
  (payload_identity_precedence "sess-1" (some "ep-1") (fun _ => none)).1

/-- Claim C10 (status: confirmed).  A resource entry whose `transferSize` is
exactly zero is reported with `transferSize = null`, the same image as an
entry on which the capability is absent: the falsy coercion makes the two
indistinguishable in the emitted record. -/
theorem transfer_size_zero_null (r : ResourceEntry) :
    (toResourceRecord { r with transferSize := some 0 }).transferSize = none
    ∧ (toResourceRecord { r with transferSize := none }).transferSize = none
    ∧ (toResourceRecord { r with transferSize := some 0 }).transferSize
      = (toResourceRecord { r with transferSize := none }).transferSize := by
  refine ⟨?_, rfl, ?_⟩ <;> simp [toResourceRecord, coerceTransferSize]

/-- Claim C10 witness at a concrete entry. -/
theorem transfer_size_zero_null_witness :
    (toResourceRecord
        { (⟨"img.png", "img", 1, some 9, 0, 1, false⟩ : ResourceEntry) with
          transferSize := some 0 }).transferSize = none :=
  (transfer_size_zero_null ⟨"img.png", "img", 1, some 9, 0, 1, false⟩).1
